import Mathlib

/-!
# Verification of the bulk email dispatcher (`send_emails.py`)

A shallow embedding of the dispatch engine of `send_emails.py`:
the per-recipient pipeline (email normalization → suppression check →
required-field completion → message build) and the session-managed send
loop (retry/backoff classification, reconnection on transport failure),
together with the outcome counters and the startup preflight gates.

External effects (the `email_validator` library, the SMTP transport, the
filesystem) are modelled as oracle inputs: each recipient carries the
result of its normalization call and a function giving the transport's
response to each send attempt.  Everything the Python code itself
computes (counter updates, retry policy, backoff arithmetic, required
field completion, template substitution, preflight boolean logic) is
translated directly from the source.
-/

namespace SendEmails

/-! ## Rows (Python dicts of lower-cased keys / trimmed values)

A recipient record is an association list; `rowGet` is `dict.get`,
`rowSet` is `dict[key] = value` (keys produced by `load_recipients` are
unique, so first-match lookup agrees with dict semantics). -/

abbrev Row := List (String × String)

/-- Python `str.strip()`: drop leading and trailing whitespace
(structural over the character list). -/
def strTrim (s : String) : String :=
  String.mk
    (((s.data.dropWhile Char.isWhitespace).reverse.dropWhile
      Char.isWhitespace).reverse)

/-- Python `str.lower()` on the ASCII range this program handles. -/
def strToLower (s : String) : String :=
  String.mk (s.data.map Char.toLower)

def rowGet (row : Row) (k : String) : Option String :=
  match row with
  | [] => none
  | kv :: rest => if kv.1 = k then some kv.2 else rowGet rest k

def rowSet (row : Row) (k v : String) : Row :=
  match row with
  | [] => [(k, v)]
  | kv :: rest => if kv.1 = k then (k, v) :: rest else kv :: rowSet rest k v

/-- `FALLBACKS = {"name": "there", "company": ""}` (lines 10-13). -/
def FALLBACKS : Row := [("name", "there"), ("company", "")]

/-! ## `ensure_required_fields` (lines 75-91)

`required = {"email"} | (used_keys & {"name", "company"})`; the loop over
`required - {"email"}` is modelled as iteration over the concretely known
candidates `["name", "company"]` filtered by membership in `used_keys`
(the two possible orders of the Python set iteration only differ in which
of two simultaneously missing keys is reported first).  The fallback
table is passed as an argument: the Python function reads the module
constant `FALLBACKS`, which the dispatch model passes at every call. -/

def missingFieldMsg (i total : Nat) (key : String) : String :=
  "[" ++ toString i ++ "/" ++ toString total ++ "] Missing required field " ++
    key ++ ". Skipping."

def requiredNonEmailKeys (used_keys : List String) : List String :=
  ["name", "company"].filter (fun k => k ∈ used_keys)

/-- `not (row.get(key) or "").strip()` — the key is missing or blank. -/
def isBlank (row : Row) (k : String) : Bool :=
  strTrim ((rowGet row k).getD "") = ""

def ensureFieldsGo (fallbacks : Row) (i total : Nat) :
    List String → Row → (Bool × String) × Row
  | [], row => ((true, ""), row)
  | key :: keys, row =>
    if isBlank row key then
      match rowGet fallbacks key with
      | none => ((false, missingFieldMsg i total key), row)
      | some fb => ensureFieldsGo fallbacks i total keys (rowSet row key fb)
    else
      ensureFieldsGo fallbacks i total keys row

def ensure_required_fields (fallbacks : Row) (row : Row)
    (used_keys : List String) (i total : Nat) : (Bool × String) × Row :=
  ensureFieldsGo fallbacks i total (requiredNonEmailKeys used_keys) row

/-! ## Retry loop with backoff (lines 406-452)

The transport's behaviour at each attempt is an oracle
`Nat → AttemptResult`; `attempt` counts from 1 as in
`range(1, MAX_RETRIES + 1)`. -/

inductive AttemptResult where
  /-- `smtp.send_message(msg)` returns normally. -/
  | success : AttemptResult
  /-- `smtplib.SMTPServerDisconnected`; the flag records whether the
  inline `smtp = smtp_client()` reconnect (line 425) succeeds. -/
  | disconnected (reconnectOk : Bool) : AttemptResult
  /-- `smtplib.SMTPResponseException` carrying `smtp_code`. -/
  | protocolError (code : Nat) : AttemptResult
  /-- any other `Exception`. -/
  | otherError : AttemptResult
  deriving DecidableEq, Repr

/-- The `is_temp` classification assigned by the three `except` arms:
a failed reconnect is temporary (line 429), a protocol rejection is
temporary iff `400 <= code < 500` (line 439), an unclassified error is
temporary (line 443).  A successful reconnect re-enters the loop via
`continue`, i.e. is retried whenever attempts remain, so it is classified
temporary as well; `success` never reaches the classification. -/
def is_temp : AttemptResult → Bool
  | .success => false
  | .disconnected _ => true
  | .protocolError code => 400 ≤ code && code < 500
  | .otherError => true

inductive RetryOutcome where
  | sentO : RetryOutcome
  | failedO : RetryOutcome
  | skippedO : RetryOutcome
  /-- the `for` loop was exhausted by `continue` without incrementing any
  counter (only reachable via `disconnected true` on the final attempt). -/
  | uncounted : RetryOutcome
  deriving DecidableEq, Repr

structure RetryResult where
  outcome : RetryOutcome
  /-- number of `smtp.send_message` invocations. -/
  calls : Nat
  /-- number of successful `smtp = smtp_client()` reconnects. -/
  reconnects : Nat
  deriving DecidableEq, Repr

/-- Recursion skeleton of the loop: `fuel` is the number of attempt
numbers still available, `maxRetries + 1 - attempt`, so `fuel = 0` is
exactly the loop-exhaustion test `maxRetries < attempt` (the structural
`fuel` stands in for the well-founded measure of the Python `for`;
`retryAux_unfold` below recovers the guard in source form). -/
def retryGo (dryRun : Bool) (maxRetries : Nat)
    (oracle : Nat → AttemptResult) : Nat → Nat → RetryResult
  | 0, _ => ⟨.uncounted, 0, 0⟩
  | fuel + 1, attempt =>
    if dryRun then
      ⟨.skippedO, 0, 0⟩
    else
      match oracle attempt with
      | .success => ⟨.sentO, 1, 0⟩
      | .disconnected true =>
        let r := retryGo dryRun maxRetries oracle fuel (attempt + 1)
        ⟨r.outcome, r.calls + 1, r.reconnects + 1⟩
      | r =>
        if attempt < maxRetries && is_temp r then
          let s := retryGo dryRun maxRetries oracle fuel (attempt + 1)
          ⟨s.outcome, s.calls + 1, s.reconnects⟩
        else
          ⟨.failedO, 1, 0⟩

/-- One recipient's `for attempt in range(1, MAX_RETRIES + 1)` body,
entered at attempt number `attempt`. -/
def retryAux (dryRun : Bool) (maxRetries : Nat)
    (oracle : Nat → AttemptResult) (attempt : Nat) : RetryResult :=
  retryGo dryRun maxRetries oracle (maxRetries + 1 - attempt) attempt

/-- The whole retry loop, `for attempt in range(1, MAX_RETRIES + 1)`. -/
def retryLoop (dryRun : Bool) (maxRetries : Nat)
    (oracle : Nat → AttemptResult) : RetryResult :=
  retryAux dryRun maxRetries oracle 1

/-! ## Backoff arithmetic (lines 445-449)

`sleep_time = min(60, (2 ** (attempt - 1)) + random.uniform(0, JITTER))`
with `JITTER = 0.2`.  The uniform draw is a parameter `j` with
`0 ≤ j < 1/5`. -/

def backoffDelay (attempt : Nat) (j : ℚ) : ℚ :=
  min 60 (2 ^ (attempt - 1) + j)

/-- The delay formula as the specification words it: the base is capped
at 60 and the jitter is added on top of the capped value. -/
def backoffDelaySpec (attempt : Nat) (j : ℚ) : ℚ :=
  min 60 (2 ^ (attempt - 1)) + j

/-! ## Per-recipient dispatch (lines 381-452)

`normalize_email` calls the external `email_validator` library, so its
result for each recipient is an oracle input (`none` models a raised
`EmailNotValidError`).  The suppression set is the run's loaded list of
lower-cased addresses; the membership test is
`normalized.lower() in suppressions` (line 392). -/

structure RecipInput where
  row : Row
  /-- result of `normalize_email((row.get("email") or "").strip())`. -/
  normRes : Option String
  /-- transport behaviour for each send attempt of this recipient. -/
  attempts : Nat → AttemptResult

inductive Outcome where
  | sentOut : Outcome
  /-- invalid email: `failed += 1; invalid_total += 1` (lines 386-387). -/
  | failedInvalid : Outcome
  /-- `ensure_required_fields` returned not-ok: `failed += 1` (line 400). -/
  | failedField : Outcome
  /-- retry loop ended in `failed += 1` (line 451). -/
  | failedSend : Outcome
  /-- suppressed address: `skipped += 1` (line 394). -/
  | skippedSuppressed : Outcome
  /-- dry-run: `skipped += 1` (line 412). -/
  | skippedDry : Outcome
  /-- the retry loop terminated without touching any counter. -/
  | uncounted : Outcome
  deriving DecidableEq, Repr

def retryOutcomeToOutcome : RetryOutcome → Outcome
  | .sentO => .sentOut
  | .failedO => .failedSend
  | .skippedO => .skippedDry
  | .uncounted => .uncounted

def isSuppressed (suppressions : List String) (addr : String) : Bool :=
  strToLower addr ∈ suppressions

structure RecipResult where
  outcome : Outcome
  calls : Nat
  reconnects : Nat
  deriving DecidableEq, Repr

/-- The body of `for i, row in enumerate(rows, start=1)` up to and
including the retry loop.  `build_message` (line 403) sits between the
field check and the retry loop; it never raises and touches no counter,
so it does not appear in the control flow (it is modelled separately
below). -/
def processRecipient (suppressions : List String) (used_keys : List String)
    (dryRun : Bool) (maxRetries : Nat) (inp : RecipInput)
    (i total : Nat) : RecipResult :=
  match inp.normRes with
  | none => ⟨.failedInvalid, 0, 0⟩
  | some normalized =>
    let row1 := rowSet inp.row "email" normalized
    if isSuppressed suppressions normalized then
      ⟨.skippedSuppressed, 0, 0⟩
    else
      match ensure_required_fields FALLBACKS row1 used_keys i total with
      | ((false, _), _) => ⟨.failedField, 0, 0⟩
      | ((true, _), _) =>
        let r := retryLoop dryRun maxRetries inp.attempts
        ⟨retryOutcomeToOutcome r.outcome, r.calls, r.reconnects⟩

/-! ## Outcome counters (lines 375-378, 458-460) -/

structure Counters where
  sent : Nat
  failed : Nat
  invalid_total : Nat
  skipped : Nat
  deriving DecidableEq, Repr

def outcomeDelta : Outcome → Counters
  | .sentOut => ⟨1, 0, 0, 0⟩
  | .failedInvalid => ⟨0, 1, 1, 0⟩
  | .failedField => ⟨0, 1, 0, 0⟩
  | .failedSend => ⟨0, 1, 0, 0⟩
  | .skippedSuppressed => ⟨0, 0, 0, 1⟩
  | .skippedDry => ⟨0, 0, 0, 1⟩
  | .uncounted => ⟨0, 0, 0, 0⟩

def addCounters (a b : Counters) : Counters :=
  ⟨a.sent + b.sent, a.failed + b.failed, a.invalid_total + b.invalid_total,
    a.skipped + b.skipped⟩

/-! ## The whole send phase of `main` (lines 375-460) -/

/-- Per-recipient results of the dispatch loop, in input order
(`enumerate(rows, start=1)`). -/
def runOutcomes (suppressions used_keys : List String) (dryRun : Bool)
    (maxRetries : Nat) (inputs : List RecipInput) : List RecipResult :=
  (List.range inputs.length).zipWith
    (fun idx inp =>
      processRecipient suppressions used_keys dryRun maxRetries inp
        (idx + 1) inputs.length)
    inputs

def runCounters (suppressions used_keys : List String) (dryRun : Bool)
    (maxRetries : Nat) (inputs : List RecipInput) : Counters :=
  (runOutcomes suppressions used_keys dryRun maxRetries inputs).foldl
    (fun c r => addCounters c (outcomeDelta r.outcome)) ⟨0, 0, 0, 0⟩

def runSendCalls (suppressions used_keys : List String) (dryRun : Bool)
    (maxRetries : Nat) (inputs : List RecipInput) : Nat :=
  ((runOutcomes suppressions used_keys dryRun maxRetries inputs).map
    (fun r => r.calls)).sum

def runReconnects (suppressions used_keys : List String) (dryRun : Bool)
    (maxRetries : Nat) (inputs : List RecipInput) : Nat :=
  ((runOutcomes suppressions used_keys dryRun maxRetries inputs).map
    (fun r => r.reconnects)).sum

/-! ## SMTP session lifecycle (lines 380, 420-429)

`with smtp_client() as smtp:` evaluates `smtp_client()` once — that
object (session 0) is the context manager and the only object whose
`__exit__` runs, exactly once, on every way out of the block.  Each
successful reconnect `smtp = smtp_client()` (line 425) opens a fresh
session k ≥ 1 that rebinds the local name only: the context manager
still holds session 0, and nothing in the code ever closes session k. -/

inductive SessionEvent where
  | opened (k : Nat) : SessionEvent
  | closed (k : Nat) : SessionEvent
  deriving DecidableEq, Repr

def sessionTrace (nReconnects : Nat) : List SessionEvent :=
  SessionEvent.opened 0 ::
    ((List.range nReconnects).map (fun k => SessionEvent.opened (k + 1)) ++
      [SessionEvent.closed 0])

def runSessionTrace (suppressions used_keys : List String) (dryRun : Bool)
    (maxRetries : Nat) (inputs : List RecipInput) : List SessionEvent :=
  sessionTrace (runReconnects suppressions used_keys dryRun maxRetries inputs)

def openCount (t : List SessionEvent) (k : Nat) : Nat :=
  t.count (SessionEvent.opened k)

def closeCount (t : List SessionEvent) (k : Nat) : Nat :=
  t.count (SessionEvent.closed k)

/-! ## Startup gates of `main` (lines 337-373) and `csv_preflight`
(lines 133-154)

`smtp_config_preflight` (network and DNS probes) is an oracle boolean;
template-file existence likewise.  The recipient source is `none` when
the file is missing, and `some headers` otherwise (`some []` models an
empty/headerless file, matching `if not headers`). -/

structure SmtpConfig where
  host : String
  port : Nat
  user : String
  pass_ : String
  fromEmail : String
  deriving DecidableEq, Repr

/-- `all([SMTP_HOST, SMTP_PORT, SMTP_USER, SMTP_PASS, FROM_EMAIL])`
(line 338): Python truthiness of the five values. -/
def configComplete (c : SmtpConfig) : Bool :=
  !(c.host = "") && !(c.port = 0) && !(c.user = "") && !(c.pass_ = "") &&
    !(c.fromEmail = "")

/-- `csv_preflight(csv_path, required)` (lines 133-154). -/
def csv_preflight (csvFile : Option (List String))
    (required : List String) : Bool :=
  match csvFile with
  | none => false
  | some headers =>
    if headers.isEmpty then false
    else
      let norm := headers.map (fun h => strToLower (strTrim h))
      required.all (fun c => c ∈ norm)

/-- `required_cols = {"email"} | (used_keys & {"name", "company"})`
(line 361), listed in the sorted order `tuple(sorted(required_cols))`
produces. -/
def requiredCols (used_keys : List String) : List String :=
  ["company", "email", "name"].filter
    (fun c => c = "email" || decide (c ∈ used_keys))

/-- `load_recipients` (lines 94-106) on pre-parsed raw records: keys are
trimmed and lower-cased, values trimmed, and a record whose values are
all blank is dropped before processing begins. -/
def load_recipients (raws : List (List (String × String))) : List Row :=
  raws.filterMap (fun raw =>
    let out := raw.map (fun kv => (strToLower (strTrim kv.1), strTrim kv.2))
    if out.all (fun kv => kv.2 = "") then none else some out)

/-- The chain of early-return gates of `main` (lines 337-373): `true`
iff control reaches the send phase (line 375). -/
def mainProceedsToSend (cfg : SmtpConfig) (htmlExists textExists : Bool)
    (used_keys : List String) (csvFile : Option (List String))
    (rowCount : Nat) (smtpPreflightOk : Bool) : Bool :=
  configComplete cfg && htmlExists && textExists &&
    csv_preflight csvFile (requiredCols used_keys) &&
    !(rowCount = 0) && smtpPreflightOk

/-- The abort condition exactly as the specification words it: the
recipient-source clause only requires the file to exist, have a header
row, and contain the `email` column. -/
def specClaimedAbort (cfg : SmtpConfig) (htmlExists textExists : Bool)
    (csvFile : Option (List String)) (rowCount : Nat)
    (smtpPreflightOk : Bool) : Bool :=
  !(configComplete cfg) || !htmlExists || !textExists ||
    !(csv_preflight csvFile ["email"]) || rowCount = 0 || !smtpPreflightOk

/-! ## Template substitution and `build_message` (lines 270-305)

`string.Template.safe_substitute` with the default pattern: `$$` is an
escaped dollar, `$identifier` and `${identifier}` substitute when the
identifier is a key of the mapping and stay verbatim otherwise, and a
`$` followed by anything else matches the `invalid` group alone and is
kept as-is, scanning resuming right after it.  Identifiers are
`[_a-zA-Z][_a-zA-Z0-9]*`. -/

def isIdentStart (c : Char) : Bool := c.isAlpha || c = '_'

def isIdentChar (c : Char) : Bool := c.isAlphanum || c = '_'

/-- Longest prefix of identifier characters, and the rest. -/
def takeIdent : List Char → List Char × List Char
  | [] => ([], [])
  | c :: cs =>
    if isIdentChar c then
      let r := takeIdent cs
      (c :: r.1, r.2)
    else ([], c :: cs)

theorem takeIdent_snd_length (l : List Char) :
    (takeIdent l).2.length ≤ l.length := by
  induction l with
  | nil => simp [takeIdent]
  | cons c cs ih =>
    simp only [takeIdent]
    split
    · exact Nat.le_succ_of_le ih
    · simp

def identOk (ident : List Char) : Bool :=
  match ident with
  | [] => false
  | c :: _ => isIdentStart c

/-- One regex match at a `$`: given the text after the `$`, the emitted
output chunk and the text at which scanning resumes. -/
def substAfterDollar (row : Row) (rest : List Char) : List Char × List Char :=
  match rest with
  | [] => (['$'], [])
  | d :: rest2 =>
    if d = '$' then
      (['$'], rest2)
    else if d = '{' then
      let pr := takeIdent rest2
      match pr.2 with
      | '}' :: rest4 =>
        if identOk pr.1 then
          match rowGet row (String.mk pr.1) with
          | some v => (v.data, rest4)
          | none => ('$' :: '{' :: (pr.1 ++ ['}']), rest4)
        else (['$'], d :: rest2)
      | _ => (['$'], d :: rest2)
    else if isIdentStart d then
      let pr := takeIdent rest2
      let ident := d :: pr.1
      match rowGet row (String.mk ident) with
      | some v => (v.data, pr.2)
      | none => ('$' :: ident, pr.2)
    else
      (['$'], d :: rest2)

theorem substAfterDollar_snd_length (row : Row) (rest : List Char) :
    (substAfterDollar row rest).2.length ≤ rest.length := by
  match rest with
  | [] => simp [substAfterDollar]
  | d :: rest2 =>
    have h2 := takeIdent_snd_length rest2
    simp only [substAfterDollar]
    repeat' split
    all_goals simp_all
    all_goals omega

def safeSubstitute (row : Row) (cs : List Char) : List Char :=
  match cs with
  | [] => []
  | c :: rest =>
    if c = '$' then
      let pr := substAfterDollar row rest
      pr.1 ++ safeSubstitute row pr.2
    else
      c :: safeSubstitute row rest
termination_by cs.length
decreasing_by
  · have := substAfterDollar_snd_length row cs
    simp only [List.length_cons]
    omega
  · simp

/-- `formataddr((name, addr))`, restricted to the plain (no quoting, no
encoding) shape it takes on the inputs this program feeds it. -/
def formataddr (name addr : String) : String :=
  if name = "" then addr else name ++ " <" ++ addr ++ ">"

structure BuildConfig where
  fromName : String
  fromEmail : String
  replyTo : String
  unsubscribeMailto : String
  unsubscribeUrl : String
  deriving DecidableEq, Repr

/-- The rendered message: the fields of the `EmailMessage` assembled by
`build_message`.  `messageId` and `dateHeader` are the values returned
by `make_msgid()` and `formatdate(localtime=True)`, passed in as oracle
inputs since they are the two fresh-per-call sources of variation. -/
structure BuiltMessage where
  subject : List Char
  fromHeader : String
  replyTo : String
  messageId : String
  dateHeader : String
  toHeader : String
  listUnsubscribe : Option (List Char)
  listUnsubscribePost : Option String
  textBody : List Char
  htmlBody : List Char
  deriving DecidableEq, Repr

/-- `build_message(row, subject_tmpl, html_tmpl, text_tmpl)`
(lines 270-305).  The attachment step (lines 299-303) reads a file and
never affects the rendered text: errors there are logged and absorbed. -/
def build_message (cfg : BuildConfig) (row : Row)
    (subject_tmpl html_tmpl text_tmpl : List Char)
    (msgid date : String) : BuiltMessage :=
  let lh : List (List Char) :=
    (if cfg.unsubscribeMailto = "" then []
     else [('<' :: "mailto:".data ++ cfg.unsubscribeMailto.data ++ ['>'])]) ++
    (if cfg.unsubscribeUrl = "" then []
     else [('<' :: safeSubstitute row cfg.unsubscribeUrl.data ++ ['>'])])
  { subject := safeSubstitute row subject_tmpl
    fromHeader := formataddr cfg.fromName cfg.fromEmail
    replyTo := cfg.replyTo
    messageId := msgid
    dateHeader := date
    toHeader := formataddr ((rowGet row "name").getD "")
      ((rowGet row "email").getD "")
    listUnsubscribe :=
      if lh = [] then none else some ((lh.intersperse ", ".data).flatten)
    listUnsubscribePost :=
      if lh = [] then none else some "List-Unsubscribe=One-Click"
    textBody := safeSubstitute row text_tmpl
    htmlBody := safeSubstitute row html_tmpl }

/-! ## Concrete scenarios used by individual claims -/

/-- One recipient row, as read from the recipient source. -/
def c1Raws : List (List (String × String)) := [[("email", "a@b.c")]]

/-- A single valid, non-suppressed recipient whose every send attempt
raises `SMTPServerDisconnected` with a succeeding reconnect. -/
def c1Inputs : List RecipInput :=
  (load_recipients c1Raws).map
    (fun row => ⟨row, some "a@b.c", fun _ => AttemptResult.disconnected true⟩)

/-- A recipient whose first send attempt loses the transport (reconnect
succeeds) and whose second attempt is delivered. -/
def c3Inputs : List RecipInput :=
  [⟨[("email", "a@b.c")], some "a@b.c",
    fun a => if a = 1 then AttemptResult.disconnected true else AttemptResult.success⟩]

/-- Ten valid, non-suppressed recipients. -/
def c7Inputs : List RecipInput :=
  List.replicate 10 ⟨[("email", "a@b.c")], some "a@b.c", fun _ => AttemptResult.success⟩

/-! ## Helper lemmas -/

/-- `retryAux` satisfies the direct transcription of the loop body:
stop with no counter when attempts are exhausted, short-circuit to
`skipped` in dry-run, stop `sent` on success, `continue` after a
successful reconnect, and otherwise retry exactly when
`attempt < MAX_RETRIES and is_temp` (line 445), else `failed += 1`. -/
theorem retryAux_unfold (dryRun : Bool) (maxRetries : Nat)
    (oracle : Nat → AttemptResult) (attempt : Nat) :
    retryAux dryRun maxRetries oracle attempt =
      if maxRetries < attempt then ⟨.uncounted, 0, 0⟩
      else if dryRun then ⟨.skippedO, 0, 0⟩
      else
        match oracle attempt with
        | .success => ⟨.sentO, 1, 0⟩
        | .disconnected true =>
          let r := retryAux dryRun maxRetries oracle (attempt + 1)
          ⟨r.outcome, r.calls + 1, r.reconnects + 1⟩
        | r =>
          if attempt < maxRetries && is_temp r then
            let s := retryAux dryRun maxRetries oracle (attempt + 1)
            ⟨s.outcome, s.calls + 1, s.reconnects⟩
          else
            ⟨.failedO, 1, 0⟩ := by
  unfold retryAux
  by_cases h : maxRetries < attempt
  · have hf : maxRetries + 1 - attempt = 0 := by omega
    rw [hf]
    simp [retryGo, h]
  · have hf : maxRetries + 1 - attempt = (maxRetries + 1 - (attempt + 1)) + 1 := by
      omega
    rw [hf]
    simp only [retryGo, if_neg h]

theorem rowGet_rowSet_self (row : Row) (k v : String) :
    rowGet (rowSet row k v) k = some v := by
  induction row with
  | nil => simp [rowGet, rowSet]
  | cons kv rest ih =>
    simp only [rowSet]
    split
    · simp [rowGet]
    · simp only [rowGet]
      rw [if_neg (by assumption)]
      exact ih

theorem rowGet_rowSet_ne (row : Row) (k v k' : String) (h : k' ≠ k) :
    rowGet (rowSet row k v) k' = rowGet row k' := by
  induction row with
  | nil =>
    simp only [rowSet, rowGet]
    rw [if_neg (fun hk => h hk.symm)]
  | cons kv rest ih =>
    simp only [rowSet]
    split
    · rename_i hkv
      simp only [rowGet]
      rw [if_neg (fun hk => h hk.symm), if_neg (by rw [hkv]; exact fun hk => h hk.symm)]
    · simp only [rowGet]
      split
      · rfl
      · exact ih

theorem isBlank_rowSet_ne (row : Row) (k v k' : String) (h : k' ≠ k) :
    isBlank (rowSet row k v) k' = isBlank row k' := by
  simp only [isBlank, rowGet_rowSet_ne row k v k' h]

/-- Combined behaviour of the field-completion loop: success exactly
when every blank key in the list has a fallback; on failure the reason
names a blank fallback-less key together with `i` and `total`; keys not
in the list are untouched; on success every blank key with fallback `fb`
is filled with `fb`. -/
theorem ensureFieldsGo_spec (fallbacks : Row) (i total : Nat)
    (keys : List String) (row : Row) (hnd : keys.Nodup) :
    ((ensureFieldsGo fallbacks i total keys row).1.1 = true ↔
      ∀ k ∈ keys, isBlank row k = true → (rowGet fallbacks k).isSome = true)
    ∧ ((ensureFieldsGo fallbacks i total keys row).1.1 = false →
      ∃ k ∈ keys, isBlank row k = true ∧ rowGet fallbacks k = none ∧
        (ensureFieldsGo fallbacks i total keys row).1.2 = missingFieldMsg i total k)
    ∧ (∀ k', k' ∉ keys →
      rowGet (ensureFieldsGo fallbacks i total keys row).2 k' = rowGet row k')
    ∧ ((ensureFieldsGo fallbacks i total keys row).1.1 = true →
      ∀ k ∈ keys, isBlank row k = true →
      ∀ fb, rowGet fallbacks k = some fb →
      rowGet (ensureFieldsGo fallbacks i total keys row).2 k = some fb) := by
  induction keys generalizing row with
  | nil =>
    simp [ensureFieldsGo]
  | cons key keys ih =>
    have hkey : key ∉ keys := (List.nodup_cons.mp hnd).1
    have hnd' : keys.Nodup := (List.nodup_cons.mp hnd).2
    by_cases hb : isBlank row key = true
    · rcases hf : rowGet fallbacks key with _ | fb
      · -- blank, no fallback: immediate failure
        simp only [ensureFieldsGo, hb, if_true, hf]
        refine ⟨?_, ?_, ?_, ?_⟩
        · constructor
          · intro h0
            exact absurd h0 (by simp)
          · intro hall
            have h2 := hall key (List.mem_cons_self _ _) hb
            rw [hf] at h2
            simp at h2
        · intro _
          exact ⟨key, List.mem_cons_self _ _, hb, hf, rfl⟩
        · intro k' _
          trivial
        · intro hok
          first
          | exact hok.elim
          | exact absurd hok (by simp)
      · -- blank, fallback defined: fill and continue
        have hrec := ih (rowSet row key fb) hnd'
        have hsame : ∀ k ∈ keys, isBlank (rowSet row key fb) k = isBlank row k := by
          intro k hk
          exact isBlank_rowSet_ne row key fb k (fun he => hkey (he ▸ hk))
        simp only [ensureFieldsGo, hb, if_true, hf]
        refine ⟨?_, ?_, ?_, ?_⟩
        · rw [hrec.1]
          constructor
          · intro hall k hk
            rcases List.mem_cons.mp hk with rfl | hk'
            · intro _
              rw [hf]
              simp
            · rw [← hsame k hk']
              exact hall k hk'
          · intro hall k hk
            rw [hsame k hk]
            exact hall k (List.mem_cons_of_mem _ hk)
        · intro hfail
          obtain ⟨k, hk, hkb, hkf, hmsg⟩ := hrec.2.1 hfail
          exact ⟨k, List.mem_cons_of_mem _ hk, (hsame k hk) ▸ hkb, hkf, hmsg⟩
        · intro k' hk'
          have h1 : k' ∉ keys := fun h => hk' (List.mem_cons_of_mem _ h)
          have h2 : k' ≠ key := fun h => hk' (h ▸ List.mem_cons_self _ _)
          rw [hrec.2.2.1 k' h1, rowGet_rowSet_ne row key fb k' h2]
        · intro hok k hk hkb fb' hfb'
          rcases List.mem_cons.mp hk with rfl | hk'
          · have hfb : fb' = fb := by
              rw [hf] at hfb'
              exact (Option.some.injEq _ _ ▸ hfb').symm
            rw [hrec.2.2.1 k hkey, rowGet_rowSet_self, hfb]
          · exact hrec.2.2.2 hok k hk' ((hsame k hk') ▸ hkb) fb' hfb'
    · -- not blank: key needs nothing
      have hrec := ih row hnd'
      simp only [ensureFieldsGo, hb, if_false]
      rw [if_neg (by simpa using hb)]
      refine ⟨?_, ?_, ?_, ?_⟩
      · rw [hrec.1]
        constructor
        · intro hall k hk
          rcases List.mem_cons.mp hk with rfl | hk'
          · intro hkb
            exact absurd hkb hb
          · exact hall k hk'
        · intro hall k hk
          exact hall k (List.mem_cons_of_mem _ hk)
      · intro hfail
        obtain ⟨k, hk, hkb, hkf, hmsg⟩ := hrec.2.1 hfail
        exact ⟨k, List.mem_cons_of_mem _ hk, hkb, hkf, hmsg⟩
      · intro k' hk'
        exact hrec.2.2.1 k' (fun h => hk' (List.mem_cons_of_mem _ h))
      · intro hok k hk hkb fb' hfb'
        rcases List.mem_cons.mp hk with rfl | hk'
        · exact absurd hkb hb
        · exact hrec.2.2.2 hok k hk' hkb fb' hfb'

theorem requiredNonEmailKeys_nodup (used_keys : List String) :
    (requiredNonEmailKeys used_keys).Nodup :=
  List.Nodup.filter _ (by decide)

theorem mem_requiredNonEmailKeys (used_keys : List String) (k : String)
    (h : k ∈ requiredNonEmailKeys used_keys) : k = "name" ∨ k = "company" := by
  have h2 := (List.mem_filter.mp h).1
  simp at h2
  exact h2

theorem email_not_required (used_keys : List String) :
    "email" ∉ requiredNonEmailKeys used_keys := by
  intro h
  rcases mem_requiredNonEmailKeys used_keys "email" h with h' | h' <;> simp at h'

/-- Under the program's own fallback table every key that can be
required has a fallback, so field completion always succeeds.  (Shared
by several claim proofs.) -/
theorem ensure_ok_FALLBACKS (row : Row) (used_keys : List String)
    (i total : Nat) :
    (ensure_required_fields FALLBACKS row used_keys i total).1.1 = true := by
  rw [ensure_required_fields]
  refine (ensureFieldsGo_spec FALLBACKS i total _ row
    (requiredNonEmailKeys_nodup used_keys)).1.mpr ?_
  intro k hk _
  rcases mem_requiredNonEmailKeys used_keys k hk with rfl | rfl <;> rfl

theorem retryAux_calls_zero (maxRetries : Nat) (oracle : Nat → AttemptResult)
    (a : Nat) (h : maxRetries < a) :
    (retryAux false maxRetries oracle a).calls = 0 := by
  rw [retryAux_unfold, if_pos h]

theorem retryAux_calls_pos (maxRetries : Nat) (oracle : Nat → AttemptResult)
    (a : Nat) (h : a ≤ maxRetries) :
    1 ≤ (retryAux false maxRetries oracle a).calls := by
  rw [retryAux_unfold, if_neg (by omega)]
  simp only [Bool.false_eq_true, if_false]
  cases horacle : oracle a
  all_goals repeat' split
  all_goals simp_all

theorem retryAux_const421 (maxRetries : Nat) :
    ∀ (k a : Nat), a + k = maxRetries →
      retryAux false maxRetries (fun _ => AttemptResult.protocolError 421) a =
        ⟨.failedO, k + 1, 0⟩ := by
  intro k
  induction k with
  | zero =>
    intro a ha
    rw [retryAux_unfold, if_neg (by omega)]
    have hlt : ¬ a < maxRetries := by omega
    simp [is_temp, hlt]
  | succ k ih =>
    intro a ha
    rw [retryAux_unfold, if_neg (by omega)]
    have hlt : a < maxRetries := by omega
    have hih := ih (a + 1) (by omega)
    simp [is_temp, hlt, hih]

/-- Characterisation of the number of send calls made from attempt `a`
on: one more call follows exactly when attempts remain and the failure
is classified temporary. -/
theorem retryAux_calls_eq (maxRetries a : Nat) (oracle : Nat → AttemptResult)
    (hle : a ≤ maxRetries) (hns : oracle a ≠ AttemptResult.success) :
    (retryAux false maxRetries oracle a).calls =
      if a < maxRetries ∧ is_temp (oracle a) = true
      then (retryAux false maxRetries oracle (a + 1)).calls + 1
      else 1 := by
  rw [retryAux_unfold, if_neg (by omega)]
  simp only [Bool.false_eq_true, if_false]
  by_cases hlt : a < maxRetries
  · cases horacle : oracle a with
    | success => exact absurd horacle hns
    | disconnected b =>
      cases b
      · simp [is_temp, hlt]
      · simp [is_temp, hlt]
    | protocolError code =>
      by_cases htemp : (400 ≤ code ∧ code < 500)
      · simp [is_temp, hlt, htemp.1, htemp.2]
      · rcases Decidable.not_and_iff_or_not.mp htemp with hx | hx <;>
          simp [is_temp, hlt, hx]
    | otherError => simp [is_temp, hlt]
  · cases horacle : oracle a with
    | success => exact absurd horacle hns
    | disconnected b =>
      cases b
      · simp [is_temp, hlt]
      · have hz := retryAux_calls_zero maxRetries oracle (a + 1) (by omega)
        simp [is_temp, hlt, hz]
    | protocolError code => simp [is_temp, hlt]
    | otherError => simp [is_temp, hlt]

/-! ## The claims -/

/-- C1 (code bug in the dispatch loop): the outcome counters do NOT
always partition the recipients.  With `MAX_RETRIES = 1` and a single
valid, non-suppressed recipient whose send raises
`SMTPServerDisconnected` and whose inline reconnect succeeds, the
`continue` (line 426) exhausts the `for` loop without any of
`sent`/`failed`/`skipped` being incremented: the run ends with all four
counters at 0 although one non-empty input record was processed, so
`sent + failed + skipped = 0 ≠ 1`. -/
theorem counter_partition_c1_violation :
    c1Inputs.length = 1
    ∧ runCounters [] [] false 1 c1Inputs = ⟨0, 0, 0, 0⟩
    ∧ (runCounters [] [] false 1 c1Inputs).sent
        + (runCounters [] [] false 1 c1Inputs).failed
        + (runCounters [] [] false 1 c1Inputs).skipped = 0 := by
  refine ⟨by decide, by decide, by decide⟩

/-- C2: a retry after a failed send attempt happens exactly when
attempts remain and the failure is classified temporary (a successful
reconnect after a transport loss re-enters the loop the same way); a
stub that always fails with a temporary 4xx rejection is attempted
exactly `MAX_RETRIES` times and then counted failed once, while a 5xx
permanent rejection on the first attempt gives exactly one attempt. -/
theorem retry_policy_c2 (maxRetries a : Nat) (oracle : Nat → AttemptResult)
    (h1 : 1 ≤ maxRetries) (h2 : 1 ≤ a) (h3 : a ≤ maxRetries)
    (h4 : oracle a ≠ AttemptResult.success) :
    (2 ≤ (retryAux false maxRetries oracle a).calls ↔
      (a < maxRetries ∧ is_temp (oracle a) = true))
    ∧ retryLoop false maxRetries (fun _ => AttemptResult.protocolError 421) =
        ⟨.failedO, maxRetries, 0⟩
    ∧ retryLoop false maxRetries (fun _ => AttemptResult.protocolError 550) =
        ⟨.failedO, 1, 0⟩ := by
  refine ⟨?_, ?_, ?_⟩
  · have hc := retryAux_calls_eq maxRetries a oracle h3 h4
    by_cases hcond : a < maxRetries ∧ is_temp (oracle a) = true
    · rw [if_pos hcond] at hc
      have hpos := retryAux_calls_pos maxRetries oracle (a + 1)
        (by omega)
      constructor
      · intro _
        exact hcond
      · intro _
        omega
    · rw [if_neg hcond] at hc
      constructor
      · intro h2le
        rw [hc] at h2le
        omega
      · intro hcond2
        exact absurd hcond2 hcond
  · rw [retryLoop, retryAux_const421 maxRetries (maxRetries - 1) 1 (by omega)]
    have he : maxRetries - 1 + 1 = maxRetries := by omega
    rw [he]
  · rw [retryLoop, retryAux_unfold, if_neg (by omega)]
    norm_num [is_temp]

theorem retry_policy_c2_witness :
    (1 ≤ 3 ∧ 1 ≤ 1 ∧ 1 ≤ 3
      ∧ (fun _ => AttemptResult.protocolError 421) 1 ≠ AttemptResult.success)
    ∧ ((2 ≤ (retryAux false 3 (fun _ => AttemptResult.protocolError 421) 1).calls ↔
        (1 < 3 ∧ is_temp ((fun _ => AttemptResult.protocolError 421) 1) = true))
      ∧ retryLoop false 3 (fun _ => AttemptResult.protocolError 421) =
          ⟨.failedO, 3, 0⟩
      ∧ retryLoop false 3 (fun _ => AttemptResult.protocolError 550) =
          ⟨.failedO, 1, 0⟩) :=
  ⟨⟨by decide, by decide, by decide, by decide⟩,
    retry_policy_c2 3 1 (fun _ => AttemptResult.protocolError 421)
      (by decide) (by decide) (by decide) (by decide)⟩

/-- C3 counterexample: in a run where the first send attempt loses the
transport, the inline reconnect succeeds and the retry is delivered, the
replacement session (session 1) is opened but never closed: the `with`
statement only ever closes session 0, so "every opened session is closed
exactly once" fails. -/
theorem session_close_c3_counterexample :
    openCount (runSessionTrace [] [] false 2 c3Inputs) 1 = 1
    ∧ closeCount (runSessionTrace [] [] false 2 c3Inputs) 1 = 0
    ∧ (runCounters [] [] false 2 c3Inputs).sent = 1 := by
  refine ⟨by decide, by decide, by decide⟩

/-- C3 amended: on every exit path the initially opened session
(session 0, the object held by the `with` statement) is closed exactly
once, but a session opened by a reconnect is never closed by the run. -/
theorem session_close_c3_amended (supps used_keys : List String)
    (dryRun : Bool) (maxRetries : Nat) (inputs : List RecipInput) :
    closeCount (runSessionTrace supps used_keys dryRun maxRetries inputs) 0 = 1
    ∧ ∀ k, 1 ≤ k →
      closeCount (runSessionTrace supps used_keys dryRun maxRetries inputs) k = 0 := by
  constructor
  · rw [runSessionTrace, sessionTrace, closeCount]
    rw [List.count_cons, List.count_append]
    have hmap : ((List.range (runReconnects supps used_keys dryRun maxRetries
        inputs)).map (fun k => SessionEvent.opened (k + 1))).count
        (SessionEvent.closed 0) = 0 := by
      rw [List.count_eq_zero]
      simp
    rw [hmap]
    simp
  · intro k hk
    have hk0 : (0 : Nat) ≠ k := by omega
    rw [runSessionTrace, sessionTrace, closeCount]
    rw [List.count_cons, List.count_append]
    have hmap : ((List.range (runReconnects supps used_keys dryRun maxRetries
        inputs)).map (fun j => SessionEvent.opened (j + 1))).count
        (SessionEvent.closed k) = 0 := by
      rw [List.count_eq_zero]
      simp
    rw [hmap]
    have hone : List.count (SessionEvent.closed k) [SessionEvent.closed 0] = 0 := by
      rw [List.count_eq_zero]
      simp
      omega
    rw [hone]
    simp

theorem session_close_c3_amended_witness :
    closeCount (runSessionTrace [] [] true 1 []) 0 = 1
    ∧ closeCount (runSessionTrace [] [] true 1 []) 1 = 0 :=
  ⟨(session_close_c3_amended [] [] true 1 []).1,
    (session_close_c3_amended [] [] true 1 []).2 1 (by decide)⟩

/-- C4 counterexample: the code computes
`min(60, 2^(attempt-1) + jitter)` — the cap is applied to the sum — not
"the capped base plus the jitter".  At attempt 7 with jitter 1/10 the
code sleeps 60 while the claimed formula gives 60 + 1/10. -/
theorem backoff_c4_counterexample :
    ((0:ℚ) ≤ 1/10 ∧ (1:ℚ)/10 < 1/5)
    ∧ backoffDelay 7 (1/10) ≠ backoffDelaySpec 7 (1/10) := by
  refine ⟨⟨by norm_num, by norm_num⟩, ?_⟩
  have hc : backoffDelay 7 (1/10) = 60 := by
    rw [backoffDelay, min_eq_left (by norm_num)]
  have hs : backoffDelaySpec 7 (1/10) = 60 + 1/10 := by
    rw [backoffDelaySpec, min_eq_left (by norm_num)]
  rw [hc, hs]
  norm_num

/-- C4 amended: the delay before the retry after attempt `a` is
`min(60, 2^(a-1) + jitter)` (jitter inside the cap); consequently the
delays are non-decreasing across successive attempts, whatever jitters
are drawn, and every delay is at most 60 + 1/5 seconds. -/
theorem backoff_c4_amended (a : Nat) (j jn : ℚ) (ha : 1 ≤ a)
    (h0 : 0 ≤ j) (h1 : j < 1/5) (h0n : 0 ≤ jn) (h1n : jn < 1/5) :
    backoffDelay a j = min 60 (2 ^ (a - 1) + j)
    ∧ backoffDelay a j ≤ backoffDelay (a + 1) jn
    ∧ backoffDelay a j ≤ 60 + 1/5 := by
  obtain ⟨b, rfl⟩ : ∃ b, a = b + 1 := ⟨a - 1, by omega⟩
  refine ⟨rfl, ?_, ?_⟩
  · have hb : (1:ℚ) ≤ 2 ^ b := by exact_mod_cast Nat.one_le_two_pow
    rw [backoffDelay, backoffDelay]
    have e1 : b + 1 - 1 = b := by omega
    have e2 : b + 1 + 1 - 1 = b + 1 := by omega
    rw [e1, e2]
    refine min_le_min le_rfl ?_
    rw [pow_succ]
    nlinarith
  · have hle : backoffDelay (b + 1) j ≤ 60 := min_le_left _ _
    linarith

theorem backoff_c4_amended_witness :
    (1 ≤ 1 ∧ (0:ℚ) ≤ 0 ∧ (0:ℚ) < 1/5 ∧ (0:ℚ) ≤ 1/10 ∧ (1:ℚ)/10 < 1/5)
    ∧ (backoffDelay 1 0 = min 60 (2 ^ (1 - 1) + 0)
      ∧ backoffDelay 1 0 ≤ backoffDelay (1 + 1) (1/10)
      ∧ backoffDelay 1 0 ≤ 60 + 1/5) :=
  ⟨⟨le_rfl, le_rfl, by norm_num, by norm_num, by norm_num⟩,
    backoff_c4_amended 1 0 (1/10) le_rfl le_rfl (by norm_num) (by norm_num)
      (by norm_num)⟩

/-- C5: a recipient whose normalized address is in the suppression set
is counted skipped (and nothing else) with zero send attempts and zero
reconnects; a non-suppressed valid address never produces the
suppression outcome nor the invalid outcome (it proceeds to field
completion); and the membership test is case-insensitive. -/
theorem suppression_c5 (supps used_keys : List String) (dryRun : Bool)
    (maxRetries : Nat) (row : Row) (oracle : Nat → AttemptResult)
    (addr : String) (i total : Nat) :
    (isSuppressed supps addr = true →
      processRecipient supps used_keys dryRun maxRetries
          ⟨row, some addr, oracle⟩ i total = ⟨.skippedSuppressed, 0, 0⟩
      ∧ outcomeDelta .skippedSuppressed = ⟨0, 0, 0, 1⟩)
    ∧ (isSuppressed supps addr = false →
      (processRecipient supps used_keys dryRun maxRetries
          ⟨row, some addr, oracle⟩ i total).outcome ≠ Outcome.skippedSuppressed
      ∧ (processRecipient supps used_keys dryRun maxRetries
          ⟨row, some addr, oracle⟩ i total).outcome ≠ Outcome.failedInvalid)
    ∧ (∀ s t : String, strToLower s = strToLower t →
        isSuppressed supps s = isSuppressed supps t) := by
  refine ⟨?_, ?_, ?_⟩
  · intro hs
    exact ⟨by simp [processRecipient, hs], rfl⟩
  · intro hs
    simp only [processRecipient, hs, Bool.false_eq_true, if_false]
    split
    · constructor <;> simp
    · constructor <;>
        (cases hr : (retryLoop dryRun maxRetries oracle).outcome <;>
          simp [retryOutcomeToOutcome, hr])
  · intro s t hst
    rw [isSuppressed, isSuppressed, hst]

theorem suppression_c5_witness :
    processRecipient ["x@y.z"] [] true 1
        ⟨[("email", "X@y.z")], some "X@y.z", fun _ => AttemptResult.success⟩ 1 1 =
      ⟨.skippedSuppressed, 0, 0⟩
    ∧ isSuppressed ["x@y.z"] "A@b.c" = isSuppressed ["x@y.z"] "a@B.C" :=
  ⟨((suppression_c5 ["x@y.z"] [] true 1 [("email", "X@y.z")]
      (fun _ => AttemptResult.success) "X@y.z" 1 1).1 (by decide)).1,
    (suppression_c5 ["x@y.z"] [] true 1 [("email", "X@y.z")]
      (fun _ => AttemptResult.success) "X@y.z" 1 1).2.2 "A@b.c" "a@B.C"
      (by decide)⟩

/-- C6: `ensure_required_fields` enforces exactly
`{email} ∪ (usedKeys ∩ {name, company})`: it succeeds iff every
required non-email key that is missing/blank has a fallback (so a key
unused by all templates is never an error), on failure the reason names
the offending key with the record position and total, on success every
missing/blank required key is filled with its fallback, and the email
field is never touched. -/
theorem ensure_required_fields_c6 (fallbacks row : Row)
    (used_keys : List String) (i total : Nat) :
    ((ensure_required_fields fallbacks row used_keys i total).1.1 = true ↔
      ∀ k ∈ requiredNonEmailKeys used_keys,
        isBlank row k = true → (rowGet fallbacks k).isSome = true)
    ∧ ((ensure_required_fields fallbacks row used_keys i total).1.1 = false →
      ∃ k ∈ requiredNonEmailKeys used_keys, isBlank row k = true ∧
        rowGet fallbacks k = none ∧
        (ensure_required_fields fallbacks row used_keys i total).1.2 =
          missingFieldMsg i total k)
    ∧ ((ensure_required_fields fallbacks row used_keys i total).1.1 = true →
      ∀ k ∈ requiredNonEmailKeys used_keys, isBlank row k = true →
      ∀ fb, rowGet fallbacks k = some fb →
        rowGet (ensure_required_fields fallbacks row used_keys i total).2 k =
          some fb)
    ∧ rowGet (ensure_required_fields fallbacks row used_keys i total).2 "email" =
        rowGet row "email" := by
  have h := ensureFieldsGo_spec fallbacks i total
    (requiredNonEmailKeys used_keys) row (requiredNonEmailKeys_nodup used_keys)
  exact ⟨h.1, h.2.1, h.2.2.2, h.2.2.1 "email" (email_not_required used_keys)⟩

theorem ensure_required_fields_c6_witness :
    (ensure_required_fields [] [("email", "a@b.c")] ["name"] 1 2).1.1 = false
    ∧ (ensure_required_fields [] [("email", "a@b.c")] ["name"] 1 2).1.2 =
        missingFieldMsg 1 2 "name"
    ∧ rowGet (ensure_required_fields [] [("email", "a@b.c")] ["name"] 1 2).2
        "email" = some "a@b.c" := by
  have h := ensure_required_fields_c6 [] [("email", "a@b.c")] ["name"] 1 2
  refine ⟨by decide, ?_, by decide⟩
  obtain ⟨k, hk, _, _, hmsg⟩ := h.2.1 (by decide)
  rcases mem_requiredNonEmailKeys ["name"] k hk with rfl | rfl
  · exact hmsg
  · exact absurd hk (by decide)

/-- C7: with dry-run enabled every valid, non-suppressed recipient is
counted skipped with zero send calls and zero reconnects, and a run of
10 such recipients ends with `skipped = 10` and no send call at all. -/
theorem dry_run_c7 :
    (∀ (supps used_keys : List String) (maxRetries : Nat) (row : Row)
        (oracle : Nat → AttemptResult) (addr : String) (i total : Nat),
      1 ≤ maxRetries → isSuppressed supps addr = false →
      processRecipient supps used_keys true maxRetries
          ⟨row, some addr, oracle⟩ i total = ⟨.skippedDry, 0, 0⟩)
    ∧ runCounters [] [] true 3 c7Inputs = ⟨0, 0, 0, 10⟩
    ∧ runSendCalls [] [] true 3 c7Inputs = 0 := by
  refine ⟨?_, by decide, by decide⟩
  intro supps used_keys maxRetries row oracle addr i total hmr hs
  have hE := ensure_ok_FALLBACKS (rowSet row "email" addr) used_keys i total
  simp only [processRecipient, hs, Bool.false_eq_true, if_false]
  split
  · rename_i heq
    rw [heq] at hE
    simp at hE
  · have hloop : retryLoop true maxRetries oracle = ⟨.skippedO, 0, 0⟩ := by
      rw [retryLoop, retryAux_unfold, if_neg (by omega)]
      simp
    rw [hloop]
    rfl

theorem dry_run_c7_witness :
    processRecipient [] [] true 3
        ⟨[("email", "a@b.c")], some "a@b.c", fun _ => AttemptResult.success⟩ 1 1 =
      ⟨.skippedDry, 0, 0⟩
    ∧ runCounters [] [] true 3 c7Inputs = ⟨0, 0, 0, 10⟩ :=
  ⟨(dry_run_c7).1 [] [] 3 [("email", "a@b.c")] (fun _ => AttemptResult.success)
      "a@b.c" 1 1 (by decide) (by decide),
    (dry_run_c7).2.1⟩

/-- C8 counterexample: when the templates use `name` and the recipient
source has only the `email` column, the run aborts although none of the
claimed abort conditions holds — `csv_preflight` demands every used
column, not just `email`. -/
theorem preflight_c8_counterexample :
    mainProceedsToSend ⟨"smtp.example.com", 587, "user", "pw", "from@x.y"⟩
      true true ["name"] (some ["email"]) 1 true = false
    ∧ specClaimedAbort ⟨"smtp.example.com", 587, "user", "pw", "from@x.y"⟩
      true true (some ["email"]) 1 true = false := by
  refine ⟨by decide, by decide⟩

/-- C8 amended: the run reaches the send phase iff the SMTP
configuration is complete, both template files exist, the recipient
source passes `csv_preflight` for ALL required columns
(`{email} ∪ (usedKeys ∩ {name, company})`), at least one usable record
was loaded, and the connectivity preflight succeeded; and the dispatch
loop itself never aborts — it processes every loaded recipient. -/
theorem preflight_c8_amended (cfg : SmtpConfig) (htmlExists textExists : Bool)
    (used_keys : List String) (csvFile : Option (List String))
    (rowCount : Nat) (smtpPreflightOk : Bool) :
    (mainProceedsToSend cfg htmlExists textExists used_keys csvFile rowCount
        smtpPreflightOk = false ↔
      (configComplete cfg = false ∨ htmlExists = false ∨ textExists = false ∨
        csv_preflight csvFile (requiredCols used_keys) = false ∨ rowCount = 0 ∨
        smtpPreflightOk = false))
    ∧ ∀ (supps : List String) (dryRun : Bool) (maxRetries : Nat)
        (inputs : List RecipInput),
        (runOutcomes supps used_keys dryRun maxRetries inputs).length =
          inputs.length := by
  constructor
  · cases hcc : configComplete cfg <;> cases htmlExists <;> cases textExists <;>
      cases hcsv : csv_preflight csvFile (requiredCols used_keys) <;>
      cases smtpPreflightOk <;> by_cases hrc : rowCount = 0 <;>
      simp [mainProceedsToSend, hcc, hcsv, hrc]
  · intro supps dryRun maxRetries inputs
    rw [runOutcomes, List.length_zipWith, List.length_range]
    exact Nat.min_self _

theorem preflight_c8_amended_witness :
    (mainProceedsToSend ⟨"h", 587, "u", "p", "f"⟩ true true [] (some ["email"])
        0 true = false ↔
      (configComplete ⟨"h", 587, "u", "p", "f"⟩ = false ∨ true = false ∨
        true = false ∨
        csv_preflight (some ["email"]) (requiredCols []) = false ∨
        (0:Nat) = 0 ∨ true = false))
    ∧ (runOutcomes [] [] true 1 []).length = ([] : List RecipInput).length :=
  ⟨(preflight_c8_amended ⟨"h", 587, "u", "p", "f"⟩ true true [] (some ["email"])
      0 true).1,
    (preflight_c8_amended ⟨"h", 587, "u", "p", "f"⟩ true true [] (some ["email"])
      0 true).2 [] true 1 []⟩

/-- C9: message building is deterministic apart from the fresh
message-id and date: for a fixed record, templates and configuration,
two builds agree on subject, text body and HTML body; the message-id
and date headers are exactly the two oracle inputs. -/
theorem build_message_deterministic_c9 (cfg : BuildConfig) (row : Row)
    (subject_tmpl html_tmpl text_tmpl : List Char) (m1 d1 m2 d2 : String) :
    (build_message cfg row subject_tmpl html_tmpl text_tmpl m1 d1).subject =
      (build_message cfg row subject_tmpl html_tmpl text_tmpl m2 d2).subject
    ∧ (build_message cfg row subject_tmpl html_tmpl text_tmpl m1 d1).textBody =
      (build_message cfg row subject_tmpl html_tmpl text_tmpl m2 d2).textBody
    ∧ (build_message cfg row subject_tmpl html_tmpl text_tmpl m1 d1).htmlBody =
      (build_message cfg row subject_tmpl html_tmpl text_tmpl m2 d2).htmlBody
    ∧ (build_message cfg row subject_tmpl html_tmpl text_tmpl m1 d1).messageId = m1
    ∧ (build_message cfg row subject_tmpl html_tmpl text_tmpl m1 d1).dateHeader = d1 :=
  ⟨rfl, rfl, rfl, rfl, rfl⟩

/-- C10: with the program's own `FALLBACKS` table (which covers both
`name` and `company`, the only keys that can ever be required beside
`email`), field completion succeeds for every record and every used-key
set, and the dispatch loop's failed-at-field-completion outcome is
unreachable. -/
theorem fallbacks_total_c10 (row : Row) (used_keys : List String)
    (i total : Nat) :
    (ensure_required_fields FALLBACKS row used_keys i total).1.1 = true
    ∧ ∀ (supps : List String) (dryRun : Bool) (maxRetries : Nat)
        (inp : RecipInput) (j n : Nat),
        (processRecipient supps used_keys dryRun maxRetries inp j n).outcome ≠
          Outcome.failedField := by
  refine ⟨ensure_ok_FALLBACKS row used_keys i total, ?_⟩
  intro supps dryRun maxRetries inp j n
  rcases hnr : inp.normRes with _ | addr
  · simp [processRecipient, hnr]
  · simp only [processRecipient, hnr]
    split
    · simp
    · split
      · rename_i heq
        have hE := ensure_ok_FALLBACKS (rowSet inp.row "email" addr) used_keys j n
        rw [heq] at hE
        simp at hE
      · cases hr : (retryLoop dryRun maxRetries inp.attempts).outcome <;>
          simp [retryOutcomeToOutcome, hr]

theorem fallbacks_total_c10_witness :
    (ensure_required_fields FALLBACKS [] ["name", "company"] 1 1).1.1 = true
    ∧ (processRecipient [] ["name", "company"] false 1
        ⟨[], some "a@b.c", fun _ => AttemptResult.protocolError 550⟩ 1 1).outcome ≠
        Outcome.failedField :=
  ⟨(fallbacks_total_c10 [] ["name", "company"] 1 1).1,
    (fallbacks_total_c10 [] ["name", "company"] 1 1).2 [] false 1
      ⟨[], some "a@b.c", fun _ => AttemptResult.protocolError 550⟩ 1 1⟩

end SendEmails
